import Mathlib

/-!
# Verification of the ticket-monitor pipeline (arijul2/London)

Shallow embedding of the scrape-filter-dedupe-notify pipeline:

* `database.py` (`TicketDatabase`): the SQLite table `seen_tickets` is modelled
  as a list of records; each operation threads the table state explicitly and
  receives the wall-clock time (`datetime.now()`) as an argument.
* `scraper.py` (`TicketScraper._generate_ticket_id`): the MD5 digest of the
  joined field string is modelled by the joined string itself (the spec assumes
  a collision-resistant digest, so identities are compared via their
  pre-images); the Python `float` price is modelled as a rational with an
  injective rendering, mirroring the injectivity of Python's float `repr`.
* `filter.py` (`TicketFilter`): the filter reads the attributes `min_price`,
  `quantity_needed` and `preferred_sections` from its criteria object; the
  repository's `SearchCriteria` (config.py) does not define them, so those
  reads are modelled as `Option` fields where `none` means "attribute absent"
  and a read of an absent attribute raises `AttributeError`.
* `monitor.py` (`TicketMonitor`): the browser fetch + extraction and the
  notification fan-out are external collaborators, supplied as functions in a
  `MonitorEnv`; a sent notification is recorded as the pair of the new tickets
  and the match name.
* `main.py` / `config.py`: the entry point is modelled as a function from the
  outcome of `Config()` to the process exit code.
-/

/-- Python exceptions that the embedded code can raise. -/
inductive PyErr
  | attributeError
  | valueError
  | exn
  deriving DecidableEq, Repr

/-- A Python `datetime` value (year, month, day, plus the time of day collapsed
to one counter).  ISO-8601 timestamp strings (`datetime.isoformat()`) compare
lexicographically in chronological order for the zero-padded four-digit-year
timestamps the program writes, so the TEXT comparisons done by SQLite are
modelled by the chronological order on these tuples. -/
structure DateTime where
  year : Nat
  month : Nat
  day : Nat
  tod : Nat
  deriving DecidableEq, Repr

/-- Strict chronological order on `DateTime` (the SQLite `<` on the stored
ISO-format strings). -/
def DateTime.ltb (a b : DateTime) : Bool :=
  a.year < b.year ∨
    (a.year = b.year ∧ (a.month < b.month ∨
      (a.month = b.month ∧ (a.day < b.day ∨
        (a.day = b.day ∧ a.tod < b.tod)))))

/-- Gregorian leap-year rule (used by `datetime.replace` day validation). -/
def isLeapYear (y : Nat) : Bool :=
  (y % 4 = 0 ∧ y % 100 ≠ 0) ∨ y % 400 = 0

/-- Number of days in a month, as validated by Python's `datetime.replace`. -/
def daysInMonth (y m : Nat) : Nat :=
  if m = 2 then (if isLeapYear y then 29 else 28)
  else if m = 4 ∨ m = 6 ∨ m = 9 ∨ m = 11 then 30
  else 31

/-- A scraped ticket dictionary (scraper.py `_parse_ticket_element`).  `price`
models the Python float as a rational; `section`, `row` and `ticket_id` are
`Option` because the dictionary value can be `None` (or, for `ticket_id` in
`TicketDatabase.get_new_tickets`, the key can be read with `.get`, which
returns `None` when absent — the two cases are indistinguishable to the code).
`is_trustable_seller` is the trust marker named by the spec's data model; no
code in `src/` ever sets or reads it, it is carried only so that trust-related
properties can be stated. -/
structure Ticket where
  price : ℚ
  quantity : Nat
  sec : Option String
  row : Option String
  url : String
  ticket_id : Option String
  is_trustable_seller : Bool
  deriving DecidableEq, Repr

/-- Model of the read ticket.get("ticket_id") followed by Python truthiness: `None` and the
empty string are both falsy, so both are normalised to `""`. -/
def tidOf (t : Ticket) : String :=
  t.ticket_id.getD ""

/-- One row of the `seen_tickets` table (database.py `_init_database`). -/
structure SeenRecord where
  ticket_id : String
  match_name : String
  price : ℚ
  quantity : Nat
  sec : Option String
  row : Option String
  url : String
  first_seen : DateTime
  last_seen : DateTime
  deriving DecidableEq, Repr

/-- The `seen_tickets` table. -/
abbrev Db := List SeenRecord

/-- Embedding of `TicketDatabase.is_seen` (database.py 46-55): `SELECT 1 FROM seen_tickets
WHERE ticket_id = ?` is non-empty. -/
def is_seen (db : Db) (tid : String) : Bool :=
  db.any (fun r => r.ticket_id == tid)

/-- Embedding of `TicketDatabase.mark_seen` (database.py 57-94): look the id up; if a row
exists, `UPDATE ... SET last_seen = ? WHERE ticket_id = ?`; otherwise
`INSERT` a fresh row with `first_seen = last_seen = now` and the descriptive
fields taken from the ticket dictionary (`.get` defaults never fire for the
fields our `Ticket` always carries).  The source reads the ticket_id key directly;
its callers only invoke it with a present id, modelled by `tidOf`. -/
def mark_seen (db : Db) (t : Ticket) (mn : String) (now : DateTime) : Db :=
  let tid := tidOf t
  if db.any (fun r => r.ticket_id == tid) then
    db.map (fun r => if r.ticket_id == tid then { r with last_seen := now } else r)
  else
    db ++ [{ ticket_id := tid, match_name := mn, price := t.price,
             quantity := t.quantity, sec := t.sec, row := t.row,
             url := t.url, first_seen := now, last_seen := now }]

/-- Embedding of `TicketDatabase.get_new_tickets` (database.py 96-117): scan the batch in
order; a ticket whose id is truthy and not yet seen is appended to the output
and immediately marked seen; every other ticket is skipped.  The table state
is threaded through the scan. -/
def get_new_tickets (db : Db) (ts : List Ticket) (mn : String) (now : DateTime) :
    List Ticket × Db :=
  match ts with
  | [] => ([], db)
  | t :: rest =>
    let tid := tidOf t
    if tid ≠ "" ∧ ¬ is_seen db tid then
      let db' := mark_seen db t mn now
      let (out, dbf) := get_new_tickets db' rest mn now
      (t :: out, dbf)
    else
      get_new_tickets db rest mn now

/-- Embedding of `TicketDatabase.cleanup_old_tickets` (database.py 134-147): the cutoff is
`datetime.now().replace(day=datetime.now().day - days)`.  `datetime.replace`
raises `ValueError` unless the new day is between 1 and the length of the
current month; in particular the subtraction underflows whenever it crosses a
month boundary.  When the replace succeeds, rows with `last_seen < cutoff`
are deleted and the deleted row count is returned. -/
def cleanup_old_tickets (db : Db) (now : DateTime) (days : Nat) :
    Except PyErr (Db × Nat) :=
  let d : Int := (now.day : Int) - (days : Int)
  if 1 ≤ d ∧ d ≤ (daysInMonth now.year now.month : Int) then
    let cutoff : DateTime := { now with day := d.toNat }
    let kept := db.filter (fun r => ¬ (r.last_seen.ltb cutoff))
    Except.ok (kept, db.length - kept.length)
  else
    Except.error PyErr.valueError

/-- The digit list of `n` in base 10, least-significant first, with `0`
rendered as the single digit `0` (Python prints `str(0) = "0"`). -/
def digitsOf (n : Nat) : List Nat :=
  if n = 0 then [0] else Nat.digits 10 n

/-- Decimal rendering of a natural number (the f-string interpolation of a
Python non-negative integer). -/
def natStr (n : Nat) : String :=
  ⟨((digitsOf n).reverse.map Nat.digitChar)⟩

/-- Decimal rendering of an integer (sign followed by digits). -/
def intStr (i : Int) : String :=
  (if i < 0 then "-" else "") ++ natStr i.natAbs

/-- Rendering of the rational modelling the Python float `price`.  Python's
float `repr` is injective on floats; the model keeps that essential property
by rendering the canonical numerator and denominator. -/
def ratStr (q : ℚ) : String :=
  intStr q.num ++ "/" ++ natStr q.den

/-- Embedding of `TicketScraper._generate_ticket_id` (scraper.py 224-228):
ticket_str joins price, quantity, section-or-empty and row-or-empty with
underscore separators, and the id is the MD5 hex digest of ticket_str.  The
Python idiom x or empty-string maps both `None` and the empty string to the
empty string and
is the identity on every other string, i.e. `Option.getD ""`.  The digest is
modelled by `ticket_str` itself: the spec stipulates a collision-resistant
digest, so identity equality is modelled by pre-image equality. -/
def generate_ticket_id (price : ℚ) (quantity : Nat)
    (sec row : Option String) : String :=
  ratStr price ++ "_" ++ natStr quantity ++ "_" ++ sec.getD "" ++ "_" ++ row.getD ""

/-- Embedding of `SearchCriteria` (config.py 10-17): exactly the fields the dataclass
declares.  `min_tickets` and `max_price` are required; the two flags default
to `False`.  Note the class defines neither `min_price` nor `quantity_needed`
nor `preferred_sections`. -/
structure SearchCriteria where
  match_name : String
  min_tickets : Nat
  max_price : ℚ
  trustable_seller_only : Bool := false
  notify_seen_tickets : Bool := false
  deriving DecidableEq, Repr

/-- The duck-typed attribute set that `TicketFilter` (filter.py) reads from
its criteria object.  `min_price`, `quantity_needed` and `preferred_sections`
are `Option`: `none` models the attribute being absent from the object (as it
is on the repository's `SearchCriteria`), and reading an absent attribute
raises `AttributeError`.  `trustable_seller_only` is carried through so that
trust-related properties can be stated; no filter code reads it. -/
structure FilterCriteria where
  min_price : Option ℚ
  max_price : ℚ
  quantity_needed : Option Nat
  preferred_sections : Option (List String)
  trustable_seller_only : Bool
  deriving DecidableEq, Repr

/-- Python attribute access: the value when the attribute exists,
`AttributeError` otherwise. -/
def getattrOf {α : Type} : Option α → Except PyErr α
  | some a => Except.ok a
  | none => Except.error PyErr.attributeError

/-- The attribute view of a config.py `SearchCriteria`: `max_price` and the
flags exist; `min_price`, `quantity_needed` and `preferred_sections` do not
(the dataclass never declares them). -/
def criteriaAttrs (s : SearchCriteria) : FilterCriteria :=
  { min_price := none, max_price := s.max_price, quantity_needed := none,
    preferred_sections := none, trustable_seller_only := s.trustable_seller_only }

/-- Embedding of `TicketFilter._matches_price` (filter.py 50-53):
`self.criteria.min_price <= price <= self.criteria.max_price`, where reading
`min_price` raises `AttributeError` when the criteria object lacks it. -/
def matches_price (c : FilterCriteria) (t : Ticket) : Except PyErr Bool := do
  let mp ← getattrOf c.min_price
  Except.ok (decide (mp ≤ t.price ∧ t.price ≤ c.max_price))

/-- Embedding of `TicketFilter._matches_quantity` (filter.py 55-58):
`quantity >= self.criteria.quantity_needed`. -/
def matches_quantity (c : FilterCriteria) (t : Ticket) : Except PyErr Bool := do
  let qn ← getattrOf c.quantity_needed
  Except.ok (decide (qn ≤ t.quantity))

/-- Lower-casing a string (Python `str.lower`, ASCII case as used by the
section names). -/
def strLower (s : String) : String :=
  ⟨s.data.map Char.toLower⟩

/-- Contiguous-sublist test on character lists (the Python `in` operator on
strings). -/
def subListB (needle : List Char) : List Char → Bool
  | [] => needle.isPrefixOf []
  | c :: rest => needle.isPrefixOf (c :: rest) || subListB needle rest

/-- Python `a in b` for strings: `a` occurs contiguously in `b`. -/
def strContains (hay pat : String) : Bool :=
  subListB pat.data hay.data

/-- Embedding of `TicketFilter._matches_section` (filter.py 60-80): a ticket without a
section passes exactly when no preferences exist; otherwise some preferred
string must match the section case-insensitively, as a substring in either
direction. -/
def matches_section (prefs : List String) (t : Ticket) : Bool :=
  let s := t.sec.getD ""
  if s = "" then
    (if prefs = [] then true else false)
  else
    let sl := strLower s
    prefs.any (fun p =>
      let pl := strLower p
      strContains sl pl || strContains pl sl)

/-- Embedding of `TicketFilter._matches_criteria` (filter.py 34-48): price check, then
quantity check, then — only when `preferred_sections` is truthy — the section
check.  There is no trust-flag check anywhere in the conjunction. -/
def matches_criteria (c : FilterCriteria) (t : Ticket) : Except PyErr Bool := do
  let p ← matches_price c t
  if ¬ p then Except.ok false else do
  let q ← matches_quantity c t
  if ¬ q then Except.ok false else do
  let prefs ← getattrOf c.preferred_sections
  if prefs ≠ [] ∧ ¬ matches_section prefs t then Except.ok false
  else Except.ok true

/-- Embedding of `TicketFilter.filter_tickets` (filter.py 15-32): keep, in order, the
tickets matching all criteria; an exception raised while checking any ticket
propagates out of the whole call. -/
def filter_tickets (c : FilterCriteria) : List Ticket → Except PyErr (List Ticket)
  | [] => Except.ok []
  | t :: ts => do
    let b ← matches_criteria c t
    let rest ← filter_tickets c ts
    Except.ok (if b then t :: rest else rest)

/-- Python `str.replace` on character lists: leftmost, non-overlapping
occurrences of a non-empty pattern are replaced.  The recursion is indexed by
a fuel counter; fuel equal to the input length suffices because every step
consumes at least one input character. -/
def replaceFuel : Nat → List Char → List Char → List Char → List Char
  | 0, _, _, l => l
  | _ + 1, _, _, [] => []
  | fuel + 1, pat, rep, c :: rest =>
    if !pat.isEmpty && pat.isPrefixOf (c :: rest) then
      rep ++ replaceFuel fuel pat rep ((c :: rest).drop pat.length)
    else
      c :: replaceFuel fuel pat rep rest

/-- Python `str.replace` (for the non-empty patterns the program uses). -/
def pyReplace (s pat rep : String) : String :=
  ⟨replaceFuel s.data.length pat.data rep.data s.data⟩

/-- Embedding of `SearchCriteria.get_event_url` (config.py 19-23):
the slug is the lower-cased match name with " vs " and then every space
replaced by "-", and the URL appends "/tickets-" and the slug to the base
URL. -/
def get_event_url (s : SearchCriteria) (base_url : String) : String :=
  base_url ++ "/tickets-" ++
    pyReplace (pyReplace (strLower s.match_name) " vs " "-") " " "-"

/-- A dispatched notification: the new tickets and the match name passed to
`NotificationService.send_notification` (whose delivery mechanics are an
external collaborator). -/
abbrev Notif := List Ticket × String

/-- The external collaborators of one monitoring tick: the base site URL, the
outcome of rendering and extracting a page (`TicketScraper` running the
browser), and the outcome of the notification fan-out. -/
structure MonitorEnv where
  base_url : String
  fetch : String → Except PyErr (List Ticket)
  notify : List Ticket → String → Except PyErr Unit

/-- Embedding of `TicketScraper.scrape_event` (scraper.py 17-58): the whole browser
interaction sits inside `try/except`, so a raising fetch degrades to the
empty listing batch. -/
def scrape_event (env : MonitorEnv) (url : String) : List Ticket :=
  match env.fetch url with
  | Except.ok ts => ts
  | Except.error _ => []

/-- Embedding of `TicketMonitor._check_match` (monitor.py 61-104) for one match, returning
the table state and the notifications sent.  The body runs inside
`try/except Exception`; the handler logs and returns, keeping whatever table
state was already committed.  Steps: build the event URL; scrape (internal
catch, above); return early on an empty batch; filter with the match's
criteria object (an `AttributeError` from the filter is caught by the
handler); return early when nothing matches; dedupe via
`get_new_tickets` (committing marks); notify when new tickets exist (a
raising notifier is caught by the handler after the marks are committed). -/
def check_match (env : MonitorEnv) (s : SearchCriteria) (db : Db)
    (now : DateTime) : Db × List Notif :=
  let all := scrape_event env (get_event_url s env.base_url)
  if all.isEmpty then (db, [])
  else
    match filter_tickets (criteriaAttrs s) all with
    | Except.error _ => (db, [])
    | Except.ok matching =>
      if matching.isEmpty then (db, [])
      else
        let (new, db') := get_new_tickets db matching s.match_name now
        if new.isEmpty then (db', [])
        else
          match env.notify new s.match_name with
          | Except.ok _ => (db', [(new, s.match_name)])
          | Except.error _ => (db', [])

/-- Embedding of `TicketMonitor.check_tickets` (monitor.py 54-59): one tick runs
`_check_match` for each configured search, in order, threading the table
state and accumulating the notifications sent. -/
def check_tickets (env : MonitorEnv) (searches : List SearchCriteria)
    (db : Db) (now : DateTime) : Db × List Notif :=
  match searches with
  | [] => (db, [])
  | s :: rest =>
    let (db1, n1) := check_match env s db now
    let (db2, n2) := check_tickets env rest db1 now
    (db2, n1 ++ n2)

/-- Embedding of `NotificationSettings` (config.py 26-40). -/
structure NotificationSettings where
  email_enabled : Bool
  email_to : Option String
  email_smtp_server : Option String
  email_smtp_port : Option Nat
  email_username : Option String
  email_password : Option String
  pushover_enabled : Bool
  pushover_api_key : Option String
  pushover_user_key : Option String
  desktop_notifications_enabled : Bool

/-- Embedding of `MonitorSettings` (config.py 63-67). -/
structure MonitorSettings where
  check_interval_minutes : Nat
  base_url : String

/-- Embedding of `Config` (config.py 79-85): its constructor sets exactly the attributes
`notifications`, `monitor` and `searches`. -/
structure Config where
  notifications : NotificationSettings
  monitor : MonitorSettings
  searches : List SearchCriteria

/-- The attribute access `config.search` performed by main.py line 27.  The
`Config` constructor (config.py 82-85) sets only `notifications`, `monitor`
and `searches`, so there is no `search` attribute and the access raises
`AttributeError`. -/
def Config.search_attr (_ : Config) : Except PyErr SearchCriteria :=
  Except.error PyErr.attributeError

/-- What the process observes at startup: the outcome of `Config()` (a
`ValueError` for incomplete numbered match definitions, per
`Config._load_searches`), and the `RUN_ONCE` flag read later. -/
structure MainEnv where
  load_config : Except PyErr Config
  run_once : Bool

/-- The `try` block of `main` (main.py 20-58) up to the point that decides
the exit code.  `Config()` may raise; then `config.search.match_name` is
read (an `AttributeError`, see `Config.search_attr`); were that read to
succeed, an empty match name would `sys.exit(1)` and otherwise the monitor
would run and the process would finish with code 0 — both continuations are
unreachable and are kept only to mirror the source's shape. -/
def mainBody (env : MainEnv) : Except PyErr Nat := do
  let config ← env.load_config
  let s ← Config.search_attr config
  if s.match_name = "" then Except.ok 1
  else Except.ok 0

/-- Embedding of `main` (main.py 20-58): any exception escaping the `try` block is caught
by `except Exception` and the process exits with code 1. -/
def main_exit_code (env : MainEnv) : Nat :=
  match mainBody env with
  | Except.ok code => code
  | Except.error _ => 1

deriving instance DecidableEq for Except

/-- Model of the query SELECT first_seen ... WHERE ticket_id = ? viewed as the
whole row (database.py 65): the first record with the given id. -/
def findRecord (db : Db) (tid : String) : Option SeenRecord :=
  db.find? (fun r => r.ticket_id == tid)

theorem is_seen_iff (db : Db) (x : String) :
    is_seen db x = true ↔ ∃ r ∈ db, r.ticket_id = x := by
  simp [is_seen, List.any_eq_true]

theorem is_seen_mark_seen (db : Db) (t : Ticket) (mn : String) (now : DateTime)
    (x : String) :
    is_seen (mark_seen db t mn now) x = true ↔
      (x = tidOf t ∨ is_seen db x = true) := by
  by_cases hseen : db.any (fun r => r.ticket_id == tidOf t)
  · have hs : is_seen db (tidOf t) = true := hseen
    simp only [mark_seen, if_pos hseen]
    rw [is_seen_iff]
    constructor
    · rintro ⟨r, hr, hid⟩
      rcases List.mem_map.mp hr with ⟨r0, hr0, rfl⟩
      right
      rw [is_seen_iff]
      refine ⟨r0, hr0, ?_⟩
      by_cases h0 : r0.ticket_id == tidOf t
      · simpa [h0] using hid
      · simpa [h0] using hid
    · rintro (rfl | h)
      · rcases (is_seen_iff db (tidOf t)).mp hs with ⟨r, hr, hid⟩
        exact ⟨{ r with last_seen := now }, by
          refine List.mem_map.mpr ⟨r, hr, ?_⟩
          simp [hid], hid⟩
      · rcases (is_seen_iff db x).mp h with ⟨r, hr, hid⟩
        by_cases h0 : r.ticket_id == tidOf t
        · exact ⟨{ r with last_seen := now },
            List.mem_map.mpr ⟨r, hr, by simp [h0]⟩, hid⟩
        · exact ⟨r, List.mem_map.mpr ⟨r, hr, by simp [h0]⟩, hid⟩
  · simp only [mark_seen, if_neg hseen]
    rw [is_seen_iff, is_seen_iff]
    simp only [List.mem_append, List.mem_singleton]
    constructor
    · rintro ⟨r, hr | rfl, hid⟩
      · exact Or.inr ⟨r, hr, hid⟩
      · exact Or.inl hid.symm
    · rintro (rfl | ⟨r, hr, hid⟩)
      · exact ⟨_, Or.inr rfl, rfl⟩
      · exact ⟨r, Or.inl hr, hid⟩

theorem get_new_seen_mono (ts : List Ticket) (db : Db) (mn : String)
    (now : DateTime) (x : String) (h : is_seen db x = true) :
    is_seen (get_new_tickets db ts mn now).2 x = true := by
  induction ts generalizing db with
  | nil => exact h
  | cons t rest ih =>
    simp only [get_new_tickets]
    split
    · exact ih _ ((is_seen_mark_seen db t mn now x).mpr (Or.inr h))
    · exact ih _ h

theorem get_new_marks (ts : List Ticket) (db : Db) (mn : String)
    (now : DateTime) :
    ∀ t ∈ ts, tidOf t ≠ "" →
      is_seen (get_new_tickets db ts mn now).2 (tidOf t) = true := by
  induction ts generalizing db with
  | nil => intro t ht; cases ht
  | cons u rest ih =>
    intro t ht hne
    rcases List.mem_cons.mp ht with rfl | htr
    · simp only [get_new_tickets]
      split
      · exact get_new_seen_mono rest _ mn now _
          ((is_seen_mark_seen db t mn now (tidOf t)).mpr (Or.inl rfl))
      · next hguard =>
        have hseen : is_seen db (tidOf t) = true := by
          by_contra hcon
          exact hguard ⟨hne, by simp_all⟩
        exact get_new_seen_mono rest db mn now _ hseen
    · simp only [get_new_tickets]
      split
      · exact ih _ t htr hne
      · exact ih _ t htr hne

theorem get_new_all_seen (ts : List Ticket) (db : Db) (mn : String)
    (now : DateTime)
    (h : ∀ t ∈ ts, tidOf t = "" ∨ is_seen db (tidOf t) = true) :
    (get_new_tickets db ts mn now).1 = [] := by
  induction ts with
  | nil => rfl
  | cons t rest ih =>
    have hguard : ¬ (tidOf t ≠ "" ∧ ¬ is_seen db (tidOf t)) := by
      rcases h t (List.mem_cons_self t rest) with he | hs
      · exact fun hc => hc.1 he
      · exact fun hc => hc.2 hs
    simp only [get_new_tickets, if_neg hguard]
    exact ih (fun u hu => h u (List.mem_cons_of_mem t hu))

theorem get_new_all_fresh (ts : List Ticket) (mn : String) (now : DateTime) :
    ∀ db : Db, (∀ t ∈ ts, tidOf t ≠ "") → (ts.map tidOf).Nodup →
      (∀ t ∈ ts, is_seen db (tidOf t) = false) →
      (get_new_tickets db ts mn now).1 = ts := by
  induction ts with
  | nil => intro db _ _ _; rfl
  | cons t rest ih =>
    intro db hid hnd hnew
    have hguard : tidOf t ≠ "" ∧ ¬ is_seen db (tidOf t) := by
      refine ⟨hid t (List.mem_cons_self t rest), ?_⟩
      simp [hnew t (List.mem_cons_self t rest)]
    simp only [get_new_tickets, if_pos hguard]
    have hrest : (get_new_tickets (mark_seen db t mn now) rest mn now).1 = rest := by
      refine ih _ (fun u hu => hid u (List.mem_cons_of_mem t hu))
        (List.Nodup.of_cons hnd) (fun u hu => ?_)
      have hne : tidOf u ≠ tidOf t := by
        intro he
        exact (List.nodup_cons.mp hnd).1 (he ▸ List.mem_map_of_mem tidOf hu)
      have : ¬ is_seen (mark_seen db t mn now) (tidOf u) = true := by
        rw [is_seen_mark_seen]
        rintro (hc | hc)
        · exact hne hc
        · rw [hnew u (List.mem_cons_of_mem t hu)] at hc; cases hc
      simpa using this
    simp [hrest]

/-- C1: `get_new_tickets` scans the batch in order, returns exactly the
listings whose identity is unseen against the live store, marking each
returned identity seen immediately: on a store that has seen none of the
(distinct, non-empty) identities it returns the whole batch, an immediately
repeated call with the identical batch returns the empty list, and a batch
holding two listings with the same unseen identity yields only the first. -/
theorem get_new_tickets_dedupe (db : Db) (ts : List Ticket) (mn mn' : String)
    (now now' : DateTime)
    (hid : ∀ t ∈ ts, tidOf t ≠ "")
    (hnd : (ts.map tidOf).Nodup)
    (hnew : ∀ t ∈ ts, is_seen db (tidOf t) = false) :
    (get_new_tickets db ts mn now).1 = ts
    ∧ (get_new_tickets (get_new_tickets db ts mn now).2 ts mn' now').1 = []
    ∧ ∀ t t' : Ticket, tidOf t' = tidOf t → tidOf t ≠ "" →
        is_seen db (tidOf t) = false →
        (get_new_tickets db [t, t'] mn now).1 = [t] := by
  refine ⟨get_new_all_fresh ts mn now db hid hnd hnew, ?_, ?_⟩
  · refine get_new_all_seen ts _ mn' now' (fun t ht => ?_)
    by_cases he : tidOf t = ""
    · exact Or.inl he
    · exact Or.inr (get_new_marks ts db mn now t ht he)
  · intro t t' hsame hne hfresh
    have hguard : tidOf t ≠ "" ∧ ¬ is_seen db (tidOf t) = true := by
      rw [hfresh]; exact ⟨hne, by simp⟩
    have hseen' : is_seen (mark_seen db t mn now) (tidOf t') = true := by
      rw [hsame]
      exact (is_seen_mark_seen db t mn now (tidOf t)).mpr (Or.inl rfl)
    have hguard' :
        ¬ (tidOf t' ≠ "" ∧ ¬ is_seen (mark_seen db t mn now) (tidOf t') = true) :=
      fun hc => hc.2 hseen'
    simp only [get_new_tickets]
    rw [if_pos hguard, if_neg hguard']

/-- Concrete tickets used by the witnesses below. -/
def tA : Ticket :=
  { price := 250, quantity := 2, sec := none, row := none,
    url := "u1", ticket_id := some "idA", is_trustable_seller := false }

def tB : Ticket :=
  { price := 300, quantity := 3, sec := some "East Stand", row := some "4",
    url := "u2", ticket_id := some "idB", is_trustable_seller := false }

/-- Witness for `get_new_tickets_dedupe`: the empty store and the batch
`[tA, tB]` satisfy the hypotheses, the first call returns the whole batch and
the repeated call returns nothing. -/
theorem get_new_tickets_dedupe_witness :
    (get_new_tickets [] [tA, tB] "m" ⟨2026, 1, 1, 0⟩).1 = [tA, tB]
    ∧ (get_new_tickets (get_new_tickets [] [tA, tB] "m" ⟨2026, 1, 1, 0⟩).2
        [tA, tB] "m" ⟨2026, 1, 1, 1⟩).1 = [] := by
  have h := get_new_tickets_dedupe [] [tA, tB] "m" "m" ⟨2026, 1, 1, 0⟩ ⟨2026, 1, 1, 1⟩
    (by decide) (by decide) (by decide)
  exact ⟨h.1, h.2.1⟩

/-- C10: a listing whose `ticket_id` is missing (`None`) or empty is silently
dropped by `get_new_tickets`: the call behaves exactly as if the listing were
not in the batch — it is not returned and the store is unchanged by it. -/
theorem get_new_tickets_drops_blank_id (db : Db) (t : Ticket) (ts : List Ticket)
    (mn : String) (now : DateTime) (h : tidOf t = "") :
    get_new_tickets db (t :: ts) mn now = get_new_tickets db ts mn now := by
  have hguard : ¬ (tidOf t ≠ "" ∧ ¬ is_seen db (tidOf t) = true) := fun hc => hc.1 h
  simp only [get_new_tickets]
  rw [if_neg hguard]

/-- Concrete id-less ticket for the C10 witness. -/
def tNoId : Ticket :=
  { price := 10, quantity := 1, sec := none, row := none,
    url := "u0", ticket_id := none, is_trustable_seller := false }

/-- Witness for `get_new_tickets_drops_blank_id` at a concrete batch. -/
theorem get_new_tickets_drops_blank_id_witness :
    tidOf tNoId = ""
    ∧ get_new_tickets [] [tNoId, tA] "m" ⟨2026, 1, 1, 0⟩
        = get_new_tickets [] [tA] "m" ⟨2026, 1, 1, 0⟩ :=
  ⟨rfl, get_new_tickets_drops_blank_id [] tNoId [tA] "m" ⟨2026, 1, 1, 0⟩ rfl⟩

/-- C5: `mark_seen` on an unknown identity appends one fresh record with
`first_seen = last_seen = now`; on a known identity it rewrites only that
record's `last_seen`, leaving `first_seen`, the match label and every
descriptive field exactly as originally recorded, and leaving every other
record untouched; and it preserves the at-most-one-record-per-identity
invariant. -/
theorem mark_seen_first_write_wins (db : Db) (t : Ticket) (mn : String)
    (now : DateTime) :
    (is_seen db (tidOf t) = false →
      mark_seen db t mn now
        = db ++ [{ ticket_id := tidOf t, match_name := mn, price := t.price,
                   quantity := t.quantity, sec := t.sec, row := t.row,
                   url := t.url, first_seen := now, last_seen := now }])
    ∧ (∀ r : SeenRecord, findRecord db (tidOf t) = some r →
        findRecord (mark_seen db t mn now) (tidOf t)
          = some { r with last_seen := now })
    ∧ (∀ r ∈ db, r.ticket_id ≠ tidOf t → r ∈ mark_seen db t mn now)
    ∧ ((db.map SeenRecord.ticket_id).Nodup →
        ((mark_seen db t mn now).map SeenRecord.ticket_id).Nodup) := by
  refine ⟨?_, ?_, ?_, ?_⟩
  · intro hfresh
    have : ¬ db.any (fun r => r.ticket_id == tidOf t) := by
      simpa [is_seen] using hfresh
    simp [mark_seen, this]
  · intro r hfind
    have hmem := List.mem_of_find?_eq_some hfind
    have hr : r.ticket_id == tidOf t :=
      @List.find?_some SeenRecord (fun x => x.ticket_id == tidOf t) r db hfind
    have hseen : db.any (fun r => r.ticket_id == tidOf t) :=
      List.any_eq_true.mpr ⟨r, hmem, hr⟩
    have hfind' :
        List.find? (fun x : SeenRecord => x.ticket_id == tidOf t) db = some r := hfind
    simp only [mark_seen, if_pos hseen, findRecord]
    rw [List.find?_map]
    have hpred : ((fun x : SeenRecord => x.ticket_id == tidOf t) ∘ fun x =>
        if x.ticket_id == tidOf t then { x with last_seen := now } else x)
          = fun x : SeenRecord => x.ticket_id == tidOf t := by
      funext x
      by_cases hx : x.ticket_id = tidOf t
      · simp [hx]
      · simp [hx]
    rw [hpred, hfind']
    simp [beq_iff_eq.mp hr]
  · intro r hmem hne
    by_cases hseen : db.any (fun x => x.ticket_id == tidOf t)
    · simp only [mark_seen, if_pos hseen]
      refine List.mem_map.mpr ⟨r, hmem, ?_⟩
      simp [hne]
    · simp only [mark_seen, if_neg hseen]
      exact List.mem_append_left _ hmem
  · intro hnd
    by_cases hseen : db.any (fun x => x.ticket_id == tidOf t)
    · simp only [mark_seen, if_pos hseen]
      rw [List.map_map]
      have hproj : (SeenRecord.ticket_id ∘ fun x : SeenRecord =>
          if x.ticket_id == tidOf t then { x with last_seen := now } else x)
            = SeenRecord.ticket_id := by
        funext x
        by_cases hx : x.ticket_id = tidOf t
        · simp [hx]
        · simp [hx]
      rw [hproj]
      exact hnd
    · simp only [mark_seen, if_neg hseen]
      rw [List.map_append]
      rw [List.nodup_append]
      refine ⟨hnd, List.nodup_singleton _, ?_⟩
      intro a ha hb
      simp only [List.map_cons, List.map_nil, List.mem_singleton] at hb
      rcases List.mem_map.mp ha with ⟨r, hr, rfl⟩
      rw [List.any_eq_true] at hseen
      exact hseen ⟨r, hr, by simp [hb]⟩

/-- A pre-existing record used by the C5 witness. -/
def rExisting : SeenRecord :=
  { ticket_id := "idA", match_name := "orig", price := 99, quantity := 1,
    sec := some "North", row := some "2", url := "orig-url",
    first_seen := ⟨2025, 12, 31, 0⟩, last_seen := ⟨2025, 12, 31, 0⟩ }

/-- Witness for `mark_seen_first_write_wins`: inserting into the empty store
writes `first_seen = last_seen = now`, and re-marking the identity of `rExisting`
(with different descriptive data on the ticket) rewrites only `last_seen`. -/
theorem mark_seen_first_write_wins_witness :
    (is_seen [] (tidOf tA) = false
      ∧ mark_seen [] tA "m" ⟨2026, 1, 1, 0⟩
          = [{ ticket_id := "idA", match_name := "m", price := 250,
               quantity := 2, sec := none, row := none, url := "u1",
               first_seen := ⟨2026, 1, 1, 0⟩, last_seen := ⟨2026, 1, 1, 0⟩ }])
    ∧ (findRecord [rExisting] (tidOf tA) = some rExisting
      ∧ findRecord (mark_seen [rExisting] tA "m" ⟨2026, 1, 1, 0⟩) (tidOf tA)
          = some { rExisting with last_seen := ⟨2026, 1, 1, 0⟩ }) := by
  refine ⟨⟨rfl, ?_⟩, rfl, ?_⟩
  · exact (mark_seen_first_write_wins [] tA "m" ⟨2026, 1, 1, 0⟩).1 rfl
  · exact (mark_seen_first_write_wins [rExisting] tA "m" ⟨2026, 1, 1, 0⟩).2.1
      rExisting rfl

/-- A record whose `last_seen` long predates any 30-day threshold, used to
exercise `cleanup_old_tickets`. -/
def rStale : SeenRecord :=
  { ticket_id := "old", match_name := "m", price := 100, quantity := 2,
    sec := none, row := none, url := "u",
    first_seen := ⟨2026, 1, 1, 0⟩, last_seen := ⟨2026, 1, 1, 0⟩ }

/-- C6 (code bug): the retention cutoff is computed by naive day-of-month
subtraction, so on 2026-03-15 a 30-day cleanup raises `ValueError`
(`day = -15`) instead of deleting the stale record; only when the subtraction
stays inside the current month (2026-03-25 minus 20 days) does the cleanup
delete the stale record and report the count. -/
theorem cleanup_old_tickets_month_underflow :
    cleanup_old_tickets [rStale] ⟨2026, 3, 15, 0⟩ 30 = Except.error PyErr.valueError
    ∧ cleanup_old_tickets [rStale] ⟨2026, 3, 25, 0⟩ 20 = Except.ok ([], 1) := by
  constructor <;> decide

/-- The criteria object of a filter whose match requires a trustable seller
(and whose other attributes are present so every read succeeds). -/
def cTrustReq : FilterCriteria :=
  { min_price := some 0, max_price := 500, quantity_needed := some 1,
    preferred_sections := some [], trustable_seller_only := true }

/-- C3 (code bug): `TicketFilter._matches_criteria` checks price, quantity
and section only — it never reads `trustable_seller_only` and never reads the
listing's trust marker.  A listing without the trust flag passes a
trust-requiring criteria set, and the filter's output is invariant under both
the criteria flag and the listing flag. -/
theorem filter_no_trust_check :
    filter_tickets cTrustReq [tA] = Except.ok [tA]
    ∧ (∀ (c : FilterCriteria) (ts : List Ticket) (b : Bool),
        filter_tickets { c with trustable_seller_only := b } ts = filter_tickets c ts)
    ∧ (∀ (c : FilterCriteria) (t : Ticket) (b : Bool),
        matches_criteria c { t with is_trustable_seller := b } = matches_criteria c t) := by
  refine ⟨by decide, ?_, ?_⟩
  · intro c ts b
    induction ts with
    | nil => rfl
    | cons t rest ih =>
      have hm : matches_criteria { c with trustable_seller_only := b } t
          = matches_criteria c t := rfl
      simp only [filter_tickets, hm, ih]
  · intro c t b
    rfl

/-- A config.py `SearchCriteria` with only the declared fields set, as built
by `Config._load_searches`. -/
def sPlain : SearchCriteria :=
  { match_name := "Arsenal vs Everton", min_tickets := 2, max_price := 500 }

/-- C4 counterexample: with the repository's `SearchCriteria` — which defines
no `min_price` — the filter's price check on a listing priced within
`max_price` raises `AttributeError`; it does not evaluate `price ≤ max_price`
and does not pass the listing. -/
theorem matches_price_missing_min_price :
    matches_price (criteriaAttrs sPlain) tA = Except.error PyErr.attributeError
    ∧ matches_price (criteriaAttrs sPlain) tA ≠ Except.ok true := by
  constructor <;> decide

/-- C4 (amended): whenever the criteria object defines `min_price = m`, the
price check accepts exactly the prices in the closed interval
`[m, max_price]` — in particular `price = max_price` passes and
`max_price + 1` is rejected. -/
theorem matches_price_interval (c : FilterCriteria) (m : ℚ) (t : Ticket)
    (h : c.min_price = some m) :
    matches_price c t = Except.ok true ↔ (m ≤ t.price ∧ t.price ≤ c.max_price) := by
  simp [matches_price, h, getattrOf, Bind.bind, Except.bind]

/-- Ticket priced exactly at the `max_price` of `cTrustReq`. -/
def tAtMax : Ticket :=
  { price := 500, quantity := 2, sec := none, row := none,
    url := "u", ticket_id := some "idMax", is_trustable_seller := false }

/-- Ticket priced one unit above the `max_price` of `cTrustReq`. -/
def tAboveMax : Ticket :=
  { price := 501, quantity := 2, sec := none, row := none,
    url := "u", ticket_id := some "idOver", is_trustable_seller := false }

/-- Witness for `matches_price_interval`: with `min_price = 0` and
`max_price = 500`, the price 500 passes (inclusive boundary) and 501 does
not. -/
theorem matches_price_interval_witness :
    cTrustReq.min_price = some 0
    ∧ matches_price cTrustReq tAtMax = Except.ok true
    ∧ matches_price cTrustReq tAboveMax ≠ Except.ok true := by
  refine ⟨rfl, ?_, ?_⟩
  · exact (matches_price_interval cTrustReq 0 tAtMax rfl).mpr (by decide)
  · intro hcon
    have := (matches_price_interval cTrustReq 0 tAboveMax rfl).mp hcon
    have h2 := this.2
    norm_num [tAboveMax, cTrustReq] at h2

/-- C7 (amended): a match whose page fetch raises contributes nothing to the
tick — the error is absorbed (scraper catch + `_check_match` handler), the
store is untouched, and the remaining matches are evaluated exactly as if
the failing match were absent. -/
theorem check_tickets_fetch_isolation (env : MonitorEnv) (m1 : SearchCriteria)
    (rest : List SearchCriteria) (db : Db) (now : DateTime) (e : PyErr)
    (hf : env.fetch (get_event_url m1 env.base_url) = Except.error e) :
    check_tickets env (m1 :: rest) db now = check_tickets env rest db now := by
  have hcm : check_match env m1 db now = (db, []) := by
    simp only [check_match, scrape_event]
    rw [hf]
    simp
  simp only [check_tickets, hcm]
  simp

/-- First configured match used by the monitor examples. -/
def sFirst : SearchCriteria :=
  { match_name := "A", min_tickets := 2, max_price := 500 }

/-- Second configured match used by the monitor examples. -/
def sSecond : SearchCriteria :=
  { match_name := "B", min_tickets := 2, max_price := 500 }

/-- Environment for the C7 counterexample: fetching the first match's event
page raises; fetching any other page yields one in-budget listing; the
notification channel itself always succeeds. -/
def envCex : MonitorEnv :=
  { base_url := "b",
    fetch := fun url =>
      if url = get_event_url sFirst "b" then Except.error PyErr.exn
      else Except.ok [tA],
    notify := fun _ _ => Except.ok () }

/-- C7 counterexample: with the first match's fetch raising and the second
match's fetch returning a listing within budget, the tick sends no
notification at all — the second match's pipeline dies at the filter step
(`AttributeError`: the repository's `SearchCriteria` has no `min_price`), so
its notification does not fire. -/
theorem check_tickets_second_match_not_notified :
    envCex.fetch (get_event_url sFirst envCex.base_url) = Except.error PyErr.exn
    ∧ envCex.fetch (get_event_url sSecond envCex.base_url) = Except.ok [tA]
    ∧ (check_tickets envCex [sFirst, sSecond] [] ⟨2026, 1, 1, 0⟩).2 = [] := by
  refine ⟨by decide, by decide, by decide⟩

/-- Environment for the C7 witness: every fetch raises. -/
def envAllFail : MonitorEnv :=
  { base_url := "b",
    fetch := fun _ => Except.error PyErr.exn,
    notify := fun _ _ => Except.ok () }

/-- Witness for `check_tickets_fetch_isolation` at a concrete environment. -/
theorem check_tickets_fetch_isolation_witness :
    envAllFail.fetch (get_event_url sFirst envAllFail.base_url)
      = Except.error PyErr.exn
    ∧ check_tickets envAllFail [sFirst, sSecond] [] ⟨2026, 1, 1, 0⟩
        = check_tickets envAllFail [sSecond] [] ⟨2026, 1, 1, 0⟩ :=
  ⟨rfl, check_tickets_fetch_isolation envAllFail sFirst [sSecond] [] ⟨2026, 1, 1, 0⟩
    PyErr.exn rfl⟩

/-- C8 (code bug): the per-match pipeline run by `_check_match` is invariant
under the `notify_seen_tickets` flag — the monitor never reads it, so setting
it to `True` does not alter dedupe behaviour and previously seen listings are
never included in notifications. -/
theorem check_match_ignores_notify_seen (env : MonitorEnv) (s : SearchCriteria)
    (db : Db) (now : DateTime) (b1 b2 : Bool) :
    check_match env { s with notify_seen_tickets := b1 } db now
      = check_match env { s with notify_seen_tickets := b2 } db now := rfl

/-- C9 (code bug): `main` always exits with code 1: if `Config()` raises the
generic handler exits 1, and otherwise the access `config.search` raises
`AttributeError` (the `Config` object has attributes `notifications`,
`monitor` and `searches` only), which the same handler turns into exit code 1.
A successful run can never exit 0. -/
theorem main_always_exits_one (env : MainEnv) : main_exit_code env = 1 := by
  unfold main_exit_code mainBody
  cases env.load_config <;> rfl

theorem sdata_append (a b : String) : (a ++ b).data = a.data ++ b.data := by
  cases a
  cases b
  rfl

theorem digitChar_inj_lt :
    ∀ a, a < 10 → ∀ b, b < 10 → Nat.digitChar a = Nat.digitChar b → a = b := by
  decide

theorem digitChar_ne_dash : ∀ a, a < 10 → Nat.digitChar a ≠ '-' := by
  decide

theorem digitChar_ne_slash : ∀ a, a < 10 → Nat.digitChar a ≠ '/' := by
  decide

theorem mem_digitsOf_lt (n d : Nat) (h : d ∈ digitsOf n) : d < 10 := by
  unfold digitsOf at h
  split at h
  · simp at h
    omega
  · exact Nat.digits_lt_base (by norm_num) h

theorem ofDigits_digitsOf (n : Nat) : Nat.ofDigits 10 (digitsOf n) = n := by
  unfold digitsOf
  split
  · simp [Nat.ofDigits]
    omega
  · exact Nat.ofDigits_digits 10 n

theorem digitsOf_injective (m n : Nat) (h : digitsOf m = digitsOf n) : m = n := by
  rw [← ofDigits_digitsOf m, ← ofDigits_digitsOf n, h]

theorem digitsOf_ne_nil (n : Nat) : digitsOf n ≠ [] := by
  unfold digitsOf
  split
  · simp
  · exact Nat.digits_ne_nil_iff_ne_zero.mpr (by assumption)

theorem map_digitChar_inj :
    ∀ l1 l2 : List Nat, (∀ d ∈ l1, d < 10) → (∀ d ∈ l2, d < 10) →
      l1.map Nat.digitChar = l2.map Nat.digitChar → l1 = l2 := by
  intro l1
  induction l1 with
  | nil =>
    intro l2 _ _ h
    cases l2 with
    | nil => rfl
    | cons b l2' => simp at h
  | cons a l1' ih =>
    intro l2 h1 h2 h
    cases l2 with
    | nil => simp at h
    | cons b l2' =>
      simp only [List.map_cons, List.cons.injEq] at h
      have ha := h1 a (List.mem_cons_self a l1')
      have hb := h2 b (List.mem_cons_self b l2')
      have : a = b := digitChar_inj_lt a ha b hb h.1
      rw [this, ih l2' (fun d hd => h1 d (List.mem_cons_of_mem a hd))
        (fun d hd => h2 d (List.mem_cons_of_mem b hd)) h.2]

theorem natStr_data (n : Nat) :
    (natStr n).data = (digitsOf n).reverse.map Nat.digitChar := rfl

theorem natStr_injective (m n : Nat) (h : natStr m = natStr n) : m = n := by
  have hd := congrArg String.data h
  rw [natStr_data, natStr_data] at hd
  have hrev : (digitsOf m).reverse = (digitsOf n).reverse :=
    map_digitChar_inj _ _
      (fun d hd' => mem_digitsOf_lt m d (List.mem_reverse.mp hd'))
      (fun d hd' => mem_digitsOf_lt n d (List.mem_reverse.mp hd')) hd
  exact digitsOf_injective m n (List.reverse_injective hrev)

theorem mem_natStr_data (n : Nat) (c : Char) (hc : c ∈ (natStr n).data) :
    ∃ d, d < 10 ∧ c = Nat.digitChar d := by
  rw [natStr_data] at hc
  rcases List.mem_map.mp hc with ⟨d, hd, rfl⟩
  exact ⟨d, mem_digitsOf_lt n d (List.mem_reverse.mp hd), rfl⟩

theorem natStr_data_ne_nil (n : Nat) : (natStr n).data ≠ [] := by
  rw [natStr_data]
  intro h
  rcases List.map_eq_nil_iff.mp h with h'
  exact digitsOf_ne_nil n (List.reverse_eq_nil_iff.mp h')

theorem intStr_data (i : Int) :
    (intStr i).data = (if i < 0 then ['-'] else []) ++ (natStr i.natAbs).data := by
  unfold intStr
  split
  · rw [sdata_append]
  · rw [sdata_append]

theorem dash_notin_natStr (n : Nat) : '-' ∉ (natStr n).data := by
  intro h
  rcases mem_natStr_data n '-' h with ⟨d, hd, he⟩
  exact digitChar_ne_dash d hd he.symm

theorem intStr_injective (i j : Int) (h : intStr i = intStr j) : i = j := by
  have hd := congrArg String.data h
  rw [intStr_data, intStr_data] at hd
  by_cases hi : i < 0 <;> by_cases hj : j < 0
  · rw [if_pos hi, if_pos hj, List.singleton_append, List.singleton_append] at hd
    have : i.natAbs = j.natAbs :=
      natStr_injective _ _ (String.ext (List.cons.injEq .. ▸ hd).2)
    omega
  · rw [if_pos hi, if_neg hj, List.singleton_append, List.nil_append] at hd
    have : '-' ∈ (natStr j.natAbs).data := by
      rw [← hd]
      exact List.mem_cons_self _ _
    exact absurd this (dash_notin_natStr _)
  · rw [if_neg hi, if_pos hj, List.singleton_append, List.nil_append] at hd
    have : '-' ∈ (natStr i.natAbs).data := by
      rw [hd]
      exact List.mem_cons_self _ _
    exact absurd this (dash_notin_natStr _)
  · rw [if_neg hi, if_neg hj, List.nil_append, List.nil_append] at hd
    have : i.natAbs = j.natAbs := natStr_injective _ _ (String.ext hd)
    omega

theorem append_sep_inj (sep : Char) :
    ∀ l1 l2 m1 m2 : List Char, sep ∉ l1 → sep ∉ l2 →
      l1 ++ sep :: m1 = l2 ++ sep :: m2 → l1 = l2 ∧ m1 = m2 := by
  intro l1
  induction l1 with
  | nil =>
    intro l2 m1 m2 _ h2 h
    cases l2 with
    | nil =>
      simp only [List.nil_append, List.cons.injEq, true_and] at h
      exact ⟨rfl, h⟩
    | cons c l2' =>
      simp only [List.nil_append, List.cons_append, List.cons.injEq] at h
      exact absurd (h.1 ▸ List.mem_cons_self c l2') h2
  | cons c l1' ih =>
    intro l2 m1 m2 h1 h2 h
    cases l2 with
    | nil =>
      simp only [List.cons_append, List.nil_append, List.cons.injEq] at h
      exact absurd (h.1 ▸ List.mem_cons_self c l1') h1
    | cons d l2' =>
      simp only [List.cons_append, List.cons.injEq] at h
      have := ih l2' m1 m2 (fun hm => h1 (List.mem_cons_of_mem c hm))
        (fun hm => h2 (List.mem_cons_of_mem d hm)) h.2
      exact ⟨by rw [h.1, this.1], this.2⟩

theorem slash_notin_natStr (n : Nat) : '/' ∉ (natStr n).data := by
  intro h
  rcases mem_natStr_data n '/' h with ⟨d, hd, he⟩
  exact digitChar_ne_slash d hd he.symm

theorem slash_notin_intStr (i : Int) : '/' ∉ (intStr i).data := by
  rw [intStr_data]
  intro h
  rcases List.mem_append.mp h with h' | h'
  · split at h'
    · simp at h'
    · simp at h'
  · exact slash_notin_natStr _ h'

theorem ratStr_data (q : ℚ) :
    (ratStr q).data = (intStr q.num).data ++ '/' :: (natStr q.den).data := by
  unfold ratStr
  rw [sdata_append, sdata_append, List.append_assoc]
  rfl

theorem ratStr_injective (p q : ℚ) (h : ratStr p = ratStr q) : p = q := by
  have hd := congrArg String.data h
  rw [ratStr_data, ratStr_data] at hd
  have hsplit := append_sep_inj '/' _ _ _ _
    (slash_notin_intStr p.num) (slash_notin_intStr q.num) hd
  have hnum : p.num = q.num := intStr_injective _ _ (String.ext hsplit.1)
  have hden : p.den = q.den := natStr_injective _ _ (String.ext hsplit.2)
  exact Rat.ext hnum hden

theorem strApp_cancel_right (a b c : String) (h : a ++ c = b ++ c) : a = b := by
  have hd := congrArg String.data h
  rw [sdata_append, sdata_append] at hd
  exact String.ext (List.append_cancel_right hd)

theorem strApp_cancel_left (a b c : String) (h : a ++ b = a ++ c) : b = c := by
  have hd := congrArg String.data h
  rw [sdata_append, sdata_append] at hd
  exact String.ext (List.append_cancel_left hd)

/-- C2: the identity generated by `_generate_ticket_id` is deterministic, and
changing any single field changes it — changing the price, the quantity, or
the (`or ''`-normalised) section or row, with the other three fields held
fixed, always yields a different identity; the sole collapse is that a `None`
section or row and an empty-string section or row normalise identically, so
`(100, 2, None, None)` and `(100, 2, "", "")` hash to the same identity. -/
theorem generate_ticket_id_determinism :
    (∀ (p : ℚ) (q : Nat) (s r : Option String),
      generate_ticket_id p q s r = generate_ticket_id p q s r)
    ∧ (∀ (p p' : ℚ) (q : Nat) (s r : Option String), p ≠ p' →
        generate_ticket_id p q s r ≠ generate_ticket_id p' q s r)
    ∧ (∀ (p : ℚ) (q q' : Nat) (s r : Option String), q ≠ q' →
        generate_ticket_id p q s r ≠ generate_ticket_id p q' s r)
    ∧ (∀ (p : ℚ) (q : Nat) (s s' r : Option String),
        s.getD "" ≠ s'.getD "" →
        generate_ticket_id p q s r ≠ generate_ticket_id p q s' r)
    ∧ (∀ (p : ℚ) (q : Nat) (s r r' : Option String),
        r.getD "" ≠ r'.getD "" →
        generate_ticket_id p q s r ≠ generate_ticket_id p q s r')
    ∧ generate_ticket_id 100 2 none none
        = generate_ticket_id 100 2 (some "") (some "") := by
  refine ⟨fun p q s r => rfl, ?_, ?_, ?_, ?_, rfl⟩
  · intro p p' q s r hne h
    unfold generate_ticket_id at h
    have h1 := strApp_cancel_right _ _ _ h
    have h2 := strApp_cancel_right _ _ _ h1
    have h3 := strApp_cancel_right _ _ _ h2
    have h4 := strApp_cancel_right _ _ _ h3
    have h5 := strApp_cancel_right _ _ _ h4
    have h6 := strApp_cancel_right _ _ _ h5
    exact hne (ratStr_injective _ _ h6)
  · intro p q q' s r hne h
    unfold generate_ticket_id at h
    have h1 := strApp_cancel_right _ _ _ h
    have h2 := strApp_cancel_right _ _ _ h1
    have h3 := strApp_cancel_right _ _ _ h2
    have h4 := strApp_cancel_right _ _ _ h3
    have h5 := strApp_cancel_left _ _ _ h4
    exact hne (natStr_injective _ _ h5)
  · intro p q s s' r hne h
    unfold generate_ticket_id at h
    have h1 := strApp_cancel_right _ _ _ h
    have h2 := strApp_cancel_right _ _ _ h1
    have h3 := strApp_cancel_left _ _ _ h2
    exact hne h3
  · intro p q s r r' hne h
    unfold generate_ticket_id at h
    have h1 := strApp_cancel_left _ _ _ h
    exact hne h1

/-- Witness for `generate_ticket_id_determinism`: two concrete tuples with
different prices get different identities, and the documented
`None`/empty-string collapse holds at the spec's example. -/
theorem generate_ticket_id_determinism_witness :
    generate_ticket_id 100 2 none none ≠ generate_ticket_id 200 2 none none
    ∧ generate_ticket_id 100 2 none none
        = generate_ticket_id 100 2 (some "") (some "") :=
  ⟨generate_ticket_id_determinism.2.1 100 200 2 none none (by norm_num),
   generate_ticket_id_determinism.2.2.2.2.2⟩
